import Mathlib

/-!
# Verification of the per-subscription streaming lifecycle engine

A shallow embedding of `src/openapi/streaming/subscription-queue.js` and
`src/openapi/streaming/subscription.js`, together with theorems settling the
claims about the action queue and the subscription state machine.

Modelling conventions:
* JavaScript objects become Lean structures; in-place mutation becomes explicit
  state passing (each JS method is a function `SubState → ... → SubState`).
* JS `undefined`/`null` become `Option`. In particular the source never assigns
  `Subscription.prototype.STATE_READY_FOR_UNSUBSCRIBE_BY_TAG`, so reading that
  property yields `undefined`; we model subscription states as `Option Nat`,
  with `none` standing for that undefined constant.
* Bitwise operations coerce `undefined` to `0` (JS `ToInt32`); `jsToUInt32`
  performs that coercion.
* Transport requests, user callbacks and log statements are side effects; they
  are recorded in trace lists (`httpCalls`, `events`, `logs`) inside the state.
  Asynchronous responses are modelled as separate handler invocations that
  receive the reference id captured at request time, exactly as the source
  captures it via `bind`.
-/

/-- The subscription actions. Modelled from the spec: the module
`subscription-actions.js` is imported by both source files but is not part of
the sources; the spec names exactly four caller actions (SUBSCRIBE,
UNSUBSCRIBE, MODIFY_PATCH, UNSUBSCRIBE_BY_TAG_PENDING). They are modelled as a
closed inductive type; `subscription.js` tests actions with bitwise AND, so
each action also carries a distinct bit value (`SubAction.toBits`). -/
inductive SubAction where
  | subscribe
  | unsubscribe
  | modifyPatch
  | unsubscribeByTagPending
deriving DecidableEq, Repr

/-- Bit value of each action constant (see `SubAction`); distinct powers of two
so that the source's bitwise tests (`peekAction() & ACTION_UNSUBSCRIBE`)
distinguish the actions. -/
def SubAction.toBits : SubAction → Nat
  | .subscribe => 0x1
  | .unsubscribe => 0x2
  | .modifyPatch => 0x4
  | .unsubscribeByTagPending => 0x8

/-- The `args` member of a queued action: `force` for UNSUBSCRIBE items and the
patch delta (opaque, a `Nat`) for MODIFY_PATCH items. A JS `undefined` args
object is modelled by the default value. -/
structure QueueArgs where
  force : Bool := false
  patch : Option Nat := none
deriving DecidableEq, Repr

/-- An entry of the subscription action queue (`{ action, args }`). -/
structure QueuedItem where
  action : SubAction
  args : QueueArgs := {}
deriving DecidableEq, Repr

/-- `SubscriptionQueue.prototype.enqueue`, with explicit fuel. The source
recurses after `this.items.splice(-1)` (drop the last element); the recursion
is bounded by the queue length, so `fuel = items.length + 1` (supplied by
`SubscriptionQueue.enqueue`) always suffices and the fuel-exhaustion branch is
unreachable (`SubscriptionQueue.enqueueCore_fuel`). The guard
`if (!queuedItem.action) throw` of the source is unrepresentable here because
`SubAction` is a closed type of valid actions. -/
def SubscriptionQueue.enqueueCore : Nat → List QueuedItem → QueuedItem → List QueuedItem
  | 0, items, queuedItem => items ++ [queuedItem]
  | fuel + 1, items, queuedItem =>
    match items.getLast? with
    | none => [queuedItem]
    | some prevItem =>
      let action := queuedItem.action
      let prevAction := prevItem.action
      if action = prevAction ∧ action ≠ .modifyPatch then
        if action = .unsubscribe ∧ queuedItem.args.force ∧ ¬ prevItem.args.force then
          items.dropLast ++ [{ prevItem with args := { prevItem.args with force := true } }]
        else
          items
      else if (prevAction = .unsubscribe ∧ action = .subscribe ∧ ¬ prevItem.args.force)
          ∨ (prevAction = .subscribe ∧ (action = .unsubscribe ∨ action = .unsubscribeByTagPending))
          ∨ (prevAction = .modifyPatch ∧
              ((action = .unsubscribe ∧ queuedItem.args.force) ∨ action = .unsubscribeByTagPending))
          ∨ (prevAction = .unsubscribe ∧ action = .unsubscribeByTagPending) then
        SubscriptionQueue.enqueueCore fuel items.dropLast queuedItem
      else
        items ++ [queuedItem]

/-- `SubscriptionQueue.prototype.enqueue`. -/
def SubscriptionQueue.enqueue (items : List QueuedItem) (queuedItem : QueuedItem) : List QueuedItem :=
  SubscriptionQueue.enqueueCore (items.length + 1) items queuedItem

/-- The fuel supplied by `SubscriptionQueue.enqueue` is irrelevant: any fuel
above the queue length yields the same result, so the fuel-exhaustion branch of
`SubscriptionQueue.enqueueCore` is never taken. -/
theorem SubscriptionQueue.enqueueCore_fuel (fuel₁ fuel₂ : Nat) (items : List QueuedItem)
    (queuedItem : QueuedItem) (h₁ : items.length < fuel₁) (h₂ : items.length < fuel₂) :
    SubscriptionQueue.enqueueCore fuel₁ items queuedItem
      = SubscriptionQueue.enqueueCore fuel₂ items queuedItem := by
  induction fuel₁ generalizing fuel₂ items with
  | zero => omega
  | succ f ih =>
    match fuel₂, h₂ with
    | f₂ + 1, h₂ =>
      unfold SubscriptionQueue.enqueueCore
      cases hLast : items.getLast? with
      | none => simp
      | some prevItem =>
        have hne : items ≠ [] := by
          intro h; subst h; simp at hLast
        have hlen : items.dropLast.length < items.length := by
          rw [List.length_dropLast]
          have := List.length_pos.mpr hne
          omega
        simp only []
        split
        · rfl
        · split
          · exact ih f₂ items.dropLast (by omega) (by omega)
          · rfl

/-- `SubscriptionQueue.prototype.isEmpty`. -/
def SubscriptionQueue.isEmpty (items : List QueuedItem) : Bool :=
  items.length == 0

/-- `SubscriptionQueue.prototype.peekAction`: the head action, or `undefined`
for an empty queue. -/
def SubscriptionQueue.peekAction (items : List QueuedItem) : Option SubAction :=
  items.head?.map (·.action)

/-- `SubscriptionQueue.prototype.reset`. -/
def SubscriptionQueue.reset (_items : List QueuedItem) : List QueuedItem := []

/-- Whether an item is an UNSUBSCRIBE or UNSUBSCRIBE_BY_TAG_PENDING action
(the test of the backwards scan in `dequeue`). -/
def isUnsubItem (item : QueuedItem) : Bool :=
  item.action == SubAction.unsubscribe || item.action == SubAction.unsubscribeByTagPending

/-- The backwards scan of `SubscriptionQueue.prototype.dequeue`
(`for (let i = this.items.length - 1; i >= 0; i--)`): returns the LAST
unsubscribe-kind item together with `items.slice(i + 1)`, the entries strictly
after it, or `none` when no unsubscribe-kind item exists. -/
def lastUnsubSplit : List QueuedItem → Option (QueuedItem × List QueuedItem)
  | [] => none
  | item :: rest =>
    match lastUnsubSplit rest with
    | some r => some r
    | none => if isUnsubItem item then some (item, rest) else none

/-- `SubscriptionQueue.prototype.dequeue`, returning the popped item together
with the remaining queue (the source mutates `this.items`). -/
def SubscriptionQueue.dequeue (items : List QueuedItem) : Option (QueuedItem × List QueuedItem) :=
  match items with
  | [] => none
  | nextItem :: rest =>
    if SubscriptionQueue.isEmpty rest then some (nextItem, rest)
    else
      match lastUnsubSplit rest with
      | some (item, suffix) => some (item, suffix)
      | none => some (nextItem, rest)

/-- Whether an item's action is SUBSCRIBE or MODIFY_PATCH (the items discarded
by `clearPatches`). -/
def isSubscribeOrPatchItem (item : QueuedItem) : Bool :=
  item.action == SubAction.subscribe || item.action == SubAction.modifyPatch

/-- The loop of `SubscriptionQueue.prototype.clearPatches`, with its
`reachedNonPatchSubscribe` flag. -/
def SubscriptionQueue.clearPatchesLoop : List QueuedItem → Bool → List QueuedItem
  | [], _ => []
  | item :: rest, reachedNonPatchSubscribe =>
    if ¬ reachedNonPatchSubscribe ∧ ¬ isSubscribeOrPatchItem item then
      item :: SubscriptionQueue.clearPatchesLoop rest true
    else
      SubscriptionQueue.clearPatchesLoop rest reachedNonPatchSubscribe

/-- `SubscriptionQueue.prototype.clearPatches`. -/
def SubscriptionQueue.clearPatches (items : List QueuedItem) : List QueuedItem :=
  SubscriptionQueue.clearPatchesLoop items false

/-- The inner loop of `clearPatches` emits nothing once the flag
`reachedNonPatchSubscribe` is set. -/
theorem SubscriptionQueue.clearPatchesLoop_true (items : List QueuedItem) :
    SubscriptionQueue.clearPatchesLoop items true = [] := by
  induction items with
  | nil => rfl
  | cons x xs ih => simp [SubscriptionQueue.clearPatchesLoop, ih]

/-- `clearPatches` keeps exactly the first queued item that is neither a
SUBSCRIBE nor a MODIFY_PATCH (when one exists) and drops everything else. -/
theorem SubscriptionQueue.clearPatches_eq_find (items : List QueuedItem) :
    SubscriptionQueue.clearPatches items
      = (items.find? (fun item => !isSubscribeOrPatchItem item)).toList := by
  unfold SubscriptionQueue.clearPatches
  induction items with
  | nil => rfl
  | cons x xs ih =>
    by_cases h : isSubscribeOrPatchItem x
    · simp [SubscriptionQueue.clearPatchesLoop, h, List.find?_cons, ih]
    · simp [SubscriptionQueue.clearPatchesLoop, h, List.find?_cons,
        SubscriptionQueue.clearPatchesLoop_true]

/-- C9: after `clearPatches()` the queue holds at most one item, namely the
first queued item whose action is neither SUBSCRIBE nor MODIFY_PATCH (when such
an item exists); every other item is dropped. -/
theorem c9_clear_patches_spec (items : List QueuedItem) :
    (SubscriptionQueue.clearPatches items).length ≤ 1
    ∧ SubscriptionQueue.clearPatches items
        = (items.find? (fun item => !isSubscribeOrPatchItem item)).toList := by
  refine ⟨?_, SubscriptionQueue.clearPatches_eq_find items⟩
  rw [SubscriptionQueue.clearPatches_eq_find]
  cases items.find? (fun item => !isSubscribeOrPatchItem item) <;> simp

/-- Appending an item on the right either makes it the last unsubscribe-kind
item (scanned first by the backwards loop) or extends the retained suffix. -/
theorem lastUnsubSplit_append_singleton (l : List QueuedItem) (x : QueuedItem) :
    lastUnsubSplit (l ++ [x])
      = if isUnsubItem x then some (x, [])
        else (lastUnsubSplit l).map (fun p => (p.1, p.2 ++ [x])) := by
  induction l with
  | nil => by_cases h : isUnsubItem x <;> simp [lastUnsubSplit, h]
  | cons y ys ih =>
    simp only [List.cons_append, lastUnsubSplit, List.append_eq, ih]
    by_cases h : isUnsubItem x
    · simp [h]
    · simp only [if_neg h]
      cases hys : lastUnsubSplit ys with
      | some p => simp
      | none => by_cases hy : isUnsubItem y <;> simp [hy]

/-- The backwards scan of `dequeue` finds the last unsubscribe-kind item (the
first one of the reversed queue) and keeps exactly the entries strictly after
it (the maximal suffix free of unsubscribe-kind items). -/
theorem lastUnsubSplit_spec (t : List QueuedItem) :
    lastUnsubSplit t
      = (t.reverse.find? isUnsubItem).map
          (fun u => (u, (t.reverse.takeWhile (fun i => !isUnsubItem i)).reverse)) := by
  induction t using List.reverseRecOn with
  | nil => rfl
  | append_singleton l x ih =>
    rw [lastUnsubSplit_append_singleton]
    by_cases h : isUnsubItem x
    · simp [h, List.find?_cons, List.takeWhile_cons]
    · simp only [List.reverse_append, List.reverse_cons, List.reverse_nil, List.nil_append,
        List.cons_append, List.find?_cons, List.takeWhile_cons, h, if_neg h]
      simp only [Bool.not_false, ih]
      cases hfind : l.reverse.find? isUnsubItem <;> simp

/-- C4: `dequeue()` on a non-empty queue always yields an item; the head is
removed; if the remaining queue contains an UNSUBSCRIBE or
UNSUBSCRIBE_BY_TAG_PENDING item, the returned item is the last such item and
everything strictly before it is discarded (the new queue is the suffix
strictly after it); otherwise the removed head itself is returned and the rest
of the queue is untouched. -/
theorem c4_dequeue_spec (a : QueuedItem) (t : List QueuedItem) :
    (SubscriptionQueue.dequeue (a :: t)).isSome = true
    ∧ (∀ u, t.reverse.find? isUnsubItem = some u →
        SubscriptionQueue.dequeue (a :: t)
          = some (u, (t.reverse.takeWhile (fun i => !isUnsubItem i)).reverse))
    ∧ (t.reverse.find? isUnsubItem = none →
        SubscriptionQueue.dequeue (a :: t) = some (a, t)) := by
  cases t with
  | nil => simp [SubscriptionQueue.dequeue, SubscriptionQueue.isEmpty]
  | cons y ys =>
    simp only [SubscriptionQueue.dequeue, SubscriptionQueue.isEmpty, List.length_cons]
    rw [lastUnsubSplit_spec]
    cases hfind : (y :: ys).reverse.find? isUnsubItem with
    | some u => simp [hfind]
    | none => simp [hfind]

/-- Witness for C4: a concrete queue where the backwards scan skips to the last
unsubscribe. -/
theorem c4_witness :
    (([⟨.modifyPatch, { patch := some 1 }⟩, ⟨.unsubscribe, { force := true }⟩,
        ⟨.modifyPatch, { patch := some 2 }⟩] : List QueuedItem).reverse.find? isUnsubItem
      = some ⟨.unsubscribe, { force := true }⟩)
    ∧ SubscriptionQueue.dequeue
        (⟨.subscribe, {}⟩ :: [⟨.modifyPatch, { patch := some 1 }⟩,
          ⟨.unsubscribe, { force := true }⟩, ⟨.modifyPatch, { patch := some 2 }⟩])
      = some (⟨.unsubscribe, { force := true }⟩, [⟨.modifyPatch, { patch := some 2 }⟩]) :=
  ⟨by decide, by
    have h := (c4_dequeue_spec ⟨.subscribe, {}⟩
      [⟨.modifyPatch, { patch := some 1 }⟩, ⟨.unsubscribe, { force := true }⟩,
        ⟨.modifyPatch, { patch := some 2 }⟩]).2.1 ⟨.unsubscribe, { force := true }⟩ (by decide)
    simpa using h⟩

/-- C6: enqueuing an exact duplicate of the tail (for a non-MODIFY_PATCH
action) leaves the queue unchanged (the `force` flags of the two equal items
OR-merge to the same flag), and the burst
SUBSCRIBE, UNSUBSCRIBE(force=false), SUBSCRIBE, UNSUBSCRIBE(force=false)
enqueued onto an empty queue coalesces to exactly UNSUBSCRIBE(force=false). -/
theorem c6_enqueue_idempotent_and_burst :
    (∀ (items : List QueuedItem) (a : QueuedItem),
      items.getLast? = some a → a.action ≠ .modifyPatch →
      SubscriptionQueue.enqueue items a = items)
    ∧ SubscriptionQueue.enqueue (SubscriptionQueue.enqueue (SubscriptionQueue.enqueue
        (SubscriptionQueue.enqueue [] ⟨.subscribe, {}⟩) ⟨.unsubscribe, { force := false }⟩)
        ⟨.subscribe, {}⟩) ⟨.unsubscribe, { force := false }⟩
      = [⟨.unsubscribe, { force := false }⟩] := by
  constructor
  · intro items a hLast hPatch
    simp only [SubscriptionQueue.enqueue, SubscriptionQueue.enqueueCore, hLast, true_and]
    rw [if_pos hPatch, if_neg]
    rintro ⟨-, hf, hnf⟩
    exact hnf hf
  · decide

/-- Witness for C6: duplicate unforced-unsubscribe enqueue is a no-op on a
concrete one-item queue. -/
theorem c6_witness :
    (([⟨.unsubscribe, { force := true }⟩] : List QueuedItem).getLast?
        = some ⟨.unsubscribe, { force := true }⟩)
    ∧ ((⟨.unsubscribe, { force := true }⟩ : QueuedItem).action ≠ .modifyPatch)
    ∧ SubscriptionQueue.enqueue [⟨.unsubscribe, { force := true }⟩]
        ⟨.unsubscribe, { force := true }⟩
      = [⟨.unsubscribe, { force := true }⟩] :=
  ⟨by decide, by decide,
    c6_enqueue_idempotent_and_burst.1 _ _ (by decide) (by decide)⟩

/-! ## Subscription model (`subscription.js`) -/

def DEFAULT_REFRESH_RATE_MS : Nat := 1000

def MIN_REFRESH_RATE_MS : Nat := 100

def FORMAT_PROTOBUF : String := "application/x-protobuf"

def FORMAT_JSON : String := "application/json"

def ERROR_UNSUPPORTED_FORMAT : String := "UnsupportedSubscriptionFormat"

/-- The duplicate-key message recognised by `onSubscribeError`. -/
def DUPLICATE_KEY_MESSAGE : String :=
  "Subscription Key (Streaming Session, Reference Id) already in use"

def UPDATE_TYPE_SNAPSHOT : Nat := 1

def UPDATE_TYPE_DELTA : Nat := 2

/-- A subscription state is a JS number, or JS `undefined` (`none`): the source
never assigns `Subscription.prototype.STATE_READY_FOR_UNSUBSCRIBE_BY_TAG`, so
that constant reads as `undefined`. -/
def STATE_SUBSCRIBE_REQUESTED : Option Nat := some 0x1

def STATE_SUBSCRIBED : Option Nat := some 0x2

def STATE_UNSUBSCRIBE_REQUESTED : Option Nat := some 0x4

def STATE_UNSUBSCRIBED : Option Nat := some 0x8

def STATE_PATCH_REQUESTED : Option Nat := some 0x10

/-- `Subscription.prototype.STATE_READY_FOR_UNSUBSCRIBE_BY_TAG` is referenced
(lines 134, 692, 808, 1009 of the source) but never assigned, so in JS it is
`undefined`. -/
def STATE_READY_FOR_UNSUBSCRIBE_BY_TAG : Option Nat := none

/-- JS `ToInt32` coercion used by the bitwise operators: `undefined` becomes
`0` (`ToNumber(undefined) = NaN`, `ToInt32(NaN) = 0`). -/
def jsToUInt32 : Option Nat → Nat
  | some n => n
  | none => 0

/-- `Subscription.prototype.TRANSITIONING_STATES`, the source's bitwise OR of
the three defined transitioning constants and the undefined
`STATE_READY_FOR_UNSUBSCRIBE_BY_TAG` (which contributes `0`); its value is
`0x15`. -/
def TRANSITIONING_STATES : Nat :=
  jsToUInt32 STATE_SUBSCRIBE_REQUESTED ||| jsToUInt32 STATE_UNSUBSCRIBE_REQUESTED |||
    jsToUInt32 STATE_PATCH_REQUESTED ||| jsToUInt32 STATE_READY_FOR_UNSUBSCRIBE_BY_TAG

/-- The source's transitioning test `this.TRANSITIONING_STATES & this.currentState`
as a boolean (JS truthiness of the resulting number). -/
def isTransitioning (currentState : Option Nat) : Bool :=
  TRANSITIONING_STATES &&& jsToUInt32 currentState != 0

/-- Numeric value of `queue.peekAction()` under the bitwise operators
(`undefined` coerces to `0`). -/
def actionBits : Option SubAction → Nat
  | some a => a.toBits
  | none => 0

/-- A parser instance as far as the subscription observes it: its format and
its registered schema names. Modelled from the spec: `parser-facade.js` and the
parser classes are not part of the sources; the spec describes a `ParserFacade`
mapping a MIME type to a parser exposing `parse`, `addSchema`, `getSchemaNames`
and `getSchemaName`. -/
structure Parser where
  format : String
  schemas : List String := []
deriving DecidableEq, Repr

/-- Modelled from the spec: unknown formats fall back to the default
(`application/json`). -/
def ParserFacade.getDefaultFormat : String := FORMAT_JSON

/-- Modelled from the spec: `ParserFacade.getParser(format, servicePath, url)`
returns the parser for the MIME type, falling back to the default parser for
unknown formats. -/
def ParserFacade.getParser (format : Option String) : Parser :=
  match format with
  | some f =>
    if f = FORMAT_PROTOBUF ∨ f = FORMAT_JSON then { format := f }
    else { format := ParserFacade.getDefaultFormat }
  | none => { format := ParserFacade.getDefaultFormat }

/-- `parser.getSchemaNames()`. -/
def Parser.getSchemaNames (p : Parser) : List String := p.schemas

/-- `parser.addSchema(schema, schemaName)` (the schema body is opaque to the
subscription; only the name is observable through `getSchemaName`). -/
def Parser.addSchema (p : Parser) (schemaName : String) : Parser :=
  { p with schemas := p.schemas ++ [schemaName] }

/-- `parser.getSchemaName()`: the most recently registered schema name. -/
def Parser.getSchemaName (p : Parser) : Option String := p.schemas.getLast?

/-- `parser.parse(data, schemaName)`. Modelled from the spec: parsing is
opaque; a parse failure (the `catch` in `processUpdate`) is modelled by an
absent payload (`none`). -/
def Parser.parse (_p : Parser) (data : Option Nat) (_schemaName : Option String) : Option Nat :=
  data

/-- The caller-supplied subscription arguments (`subscriptionArgs` /
`this.subscriptionData`). `Arguments` and payloads are opaque `Nat`s. -/
structure SubscriptionData where
  Format : Option String := none
  RefreshRate : Option Nat := none
  Arguments : Option Nat := none
  Tag : Option String := none
  Top : Option Nat := none
deriving DecidableEq, Repr

/-- The body of the subscribe POST: the shallow copy
`extend({}, this.subscriptionData, { ContextId, ReferenceId, KnownSchemas })`. -/
structure PostBody where
  data : SubscriptionData
  ContextId : Nat
  ReferenceId : Nat
  KnownSchemas : List String
deriving DecidableEq, Repr

/-- A streaming message; `Data` is the opaque payload handed to the parser
(`none` models a payload the parser throws on). -/
structure Message where
  Data : Option Nat := none
deriving DecidableEq, Repr

/-- The success-response envelope of the subscribe POST
(`result.response`). -/
structure SnapshotResponse where
  InactivityTimeout : Option Nat := none
  Snapshot : Option Nat := none
  Schema : Option String := none
  SchemaName : Option String := none
deriving DecidableEq, Repr

/-- The envelope handed to `onSubscribeSuccess` (`result`). -/
structure SubscribeResult where
  response : SnapshotResponse
deriving DecidableEq, Repr

/-- The body of a transport error (`response.response`). -/
structure ErrorResponseBody where
  Message : Option String := none
  ErrorCode : Option String := none
deriving DecidableEq, Repr

/-- The transport error envelope
(`{isNetworkError?, response?: {ErrorCode?, Message?}}`). -/
structure ErrorResponse where
  isNetworkError : Bool := false
  response : Option ErrorResponseBody := none
deriving DecidableEq, Repr

/-- An HTTP request issued through the transport. -/
inductive HttpCall where
  | post (servicePath url : String) (body : PostBody)
  | del (servicePath urlTemplate : String) (contextId : Option Nat) (referenceId : Option Nat)
  | patchReq (servicePath urlTemplate : String) (contextId : Option Nat)
      (referenceId : Option Nat) (body : QueueArgs)
deriving DecidableEq, Repr

/-- A user-visible callback invocation. `stateChanged` stands for the
synchronous notification of the registered state-change observers. -/
inductive CallbackEvent where
  | update (data : Option Nat) (updateType : Nat)
  | error
  | subscriptionCreated
  | queueEmpty
  | networkError
  | stateChanged (state : Option Nat)
deriving DecidableEq, Repr

/-- The mutable state of one `Subscription` object, together with the
module-level reference-id counter and the observable traces (HTTP requests,
user callbacks, log entries). -/
structure SubState where
  streamingContextId : Nat
  currentStreamingContextId : Option Nat := none
  referenceId : Option Nat := none
  refCounter : Nat := 1
  currentState : Option Nat := none
  queue : List QueuedItem := []
  parser : Parser := { format := FORMAT_JSON }
  servicePath : String := ""
  url : String := ""
  subscriptionData : SubscriptionData := {}
  hasOnSubscriptionCreated : Bool := false
  hasOnError : Bool := false
  hasOnQueueEmpty : Bool := false
  hasOnNetworkError : Bool := false
  schemaName : Option String := none
  updatesBeforeSubscribed : Option (List Message) := none
  inactivityTimeout : Nat := 0
  latestActivity : Nat := 0
  connectionAvailable : Bool := true
  networkErrorSubscribingTimer : Bool := false
  isDisposed : Bool := false
  httpCalls : List HttpCall := []
  events : List CallbackEvent := []
  logs : List String := []
deriving DecidableEq, Repr

/-- Record a log statement. -/
def addLog (s : SubState) (entry : String) : SubState :=
  { s with logs := s.logs ++ [entry] }

/-- Record a user callback invocation. -/
def fireEvent (s : SubState) (e : CallbackEvent) : SubState :=
  { s with events := s.events ++ [e] }

/-- `setState`: store the state and notify the state-change observers. -/
def setState (s : SubState) (state : Option Nat) : SubState :=
  fireEvent { s with currentState := state } (.stateChanged state)

/-- `onActivity`: stamp `latestActivity` with the current wall clock (`now` is
passed explicitly in place of `new Date().getTime()`). -/
def onActivity (s : SubState) (now : Nat) : SubState :=
  { s with latestActivity := now }

/-- `getSubscribeUrl`: append `?$top=<n>` when `Top` is present (and truthy:
`!subscriptionData.Top` is also true for `Top === 0`). -/
def getSubscribeUrl (url : String) (subscriptionData : SubscriptionData) : String :=
  match subscriptionData.Top with
  | none => url
  | some t => if t = 0 then url else url ++ "?$top=" ++ toString t

/-- `normalizeSubscribeData`: delete `Top` from the POST body (the shallow
copy, not the stored `subscriptionData`). -/
def normalizeSubscribeData (body : PostBody) : PostBody :=
  { body with data := { body.data with Top := none } }

/-- The internal `subscribe()`: allocate a fresh reference id from the
module-level counter, clear the pre-subscribe buffer, build the POST body as a
shallow copy of `subscriptionData` (with `Top` stripped and moved to the query
string), transition to SUBSCRIBE_REQUESTED, snapshot the streaming context id
and issue the POST. -/
def Subscription.subscribe (s : SubState) : SubState :=
  let referenceId := s.refCounter
  let s := { s with
    referenceId := some referenceId
    refCounter := s.refCounter + 1
    updatesBeforeSubscribed := none }
  let subscribeUrl := getSubscribeUrl s.url s.subscriptionData
  let data : PostBody :=
    { data := s.subscriptionData
      ContextId := s.streamingContextId
      ReferenceId := referenceId
      KnownSchemas := s.parser.getSchemaNames }
  let data := normalizeSubscribeData data
  let s := addLog s "debug:postingToCreateSubscription"
  let s := setState s STATE_SUBSCRIBE_REQUESTED
  let s := { s with currentStreamingContextId := some s.streamingContextId }
  { s with httpCalls := s.httpCalls ++ [.post s.servicePath subscribeUrl data] }

/-- The internal `unsubscribe()`: transition to UNSUBSCRIBE_REQUESTED and issue
the DELETE against the snapshotted context id and the current reference id. -/
def Subscription.unsubscribe (s : SubState) : SubState :=
  let s := setState s STATE_UNSUBSCRIBE_REQUESTED
  let referenceId := s.referenceId
  { s with httpCalls := s.httpCalls ++
      [.del s.servicePath (s.url ++ "/{contextId}/{referenceId}")
        s.currentStreamingContextId referenceId] }

/-- The internal `modifyPatch(args)`: transition to PATCH_REQUESTED and issue
the PATCH. -/
def Subscription.modifyPatch (s : SubState) (args : QueueArgs) : SubState :=
  let s := setState s STATE_PATCH_REQUESTED
  { s with httpCalls := s.httpCalls ++
      [.patchReq s.servicePath (s.url ++ "/{contextId}/{referenceId}")
        s.currentStreamingContextId s.referenceId args] }

/-- The internal `unsubscribeByTagPending()`: transition to the (undefined)
READY_FOR_UNSUBSCRIBE_BY_TAG state. -/
def Subscription.unsubscribeByTagPending (s : SubState) : SubState :=
  setState s STATE_READY_FOR_UNSUBSCRIBE_BY_TAG

/-- The `switch (action)` dispatch of `performAction`. The `default: throw`
branch for an unrecognised action is unrepresentable because `SubAction` is a
closed type. -/
def Subscription.dispatchAction (s : SubState) (queuedAction : QueuedItem) : SubState :=
  match queuedAction.action with
  | .subscribe =>
    if s.currentState = STATE_SUBSCRIBED then s
    else if s.currentState = STATE_UNSUBSCRIBED then
      Subscription.subscribe { s with queue := SubscriptionQueue.clearPatches s.queue }
    else addLog s "error:unanticipatedStateSubscribe"
  | .modifyPatch =>
    if s.currentState = STATE_SUBSCRIBED then
      Subscription.modifyPatch s queuedAction.args
    else addLog s "error:unanticipatedStatePatch"
  | .unsubscribe =>
    if s.currentState = STATE_SUBSCRIBED then Subscription.unsubscribe s
    else if s.currentState = STATE_UNSUBSCRIBED then s
    else addLog s "error:unanticipatedStateUnsubscribe"
  | .unsubscribeByTagPending =>
    if s.currentState = STATE_SUBSCRIBED ∨ s.currentState = STATE_UNSUBSCRIBED then
      Subscription.unsubscribeByTagPending s
    else addLog s "error:unanticipatedStateUnsubscribeByTagPending"

/-- `performAction(queuedAction, isLastQueuedAction)`, with explicit fuel. The
source recurses on `this.queue.dequeue()` while the queue is non-empty and the
state is not transitioning; each recursion strictly shrinks the queue, so
`fuel = queue.length + 1` (supplied by `Subscription.performAction`) always
suffices (`Subscription.performActionCore_fuel`). -/
def Subscription.performActionCore : Nat → SubState → QueuedItem → Bool → SubState
  | 0, s, _, _ => s
  | fuel + 1, s, queuedAction, isLastQueuedAction =>
    let s := Subscription.dispatchAction s queuedAction
    let s := if s.hasOnQueueEmpty ∧ isLastQueuedAction then fireEvent s .queueEmpty else s
    if ¬ SubscriptionQueue.isEmpty s.queue ∧ ¬ isTransitioning s.currentState then
      match SubscriptionQueue.dequeue s.queue with
      | some (item, rest) =>
        Subscription.performActionCore fuel { s with queue := rest } item
          (SubscriptionQueue.isEmpty rest)
      | none => s
    else s

/-- `performAction(queuedAction, isLastQueuedAction)`. -/
def Subscription.performAction (s : SubState) (queuedAction : QueuedItem)
    (isLastQueuedAction : Bool) : SubState :=
  Subscription.performActionCore (s.queue.length + 1) s queuedAction isLastQueuedAction

/-- `tryPerformAction(action, args)`: cancel a pending network-error retry
timer, then either enqueue (no connection, or transitioning state) or execute
immediately. The source calls `performAction` without the second argument, so
`isLastQueuedAction` is `undefined` (falsy). -/
def Subscription.tryPerformAction (s : SubState) (action : SubAction) (args : QueueArgs) : SubState :=
  let s := { s with networkErrorSubscribingTimer := false }
  if ¬ s.connectionAvailable ∨ isTransitioning s.currentState then
    { s with queue := SubscriptionQueue.enqueue s.queue { action := action, args := args } }
  else
    Subscription.performAction s { action := action, args := args } false

/-- `onReadyToPerformNextAction()`: drain one queued action (the arguments are
evaluated left to right, so `isLastQueuedAction` observes the queue after the
dequeue). -/
def Subscription.onReadyToPerformNextAction (s : SubState) : SubState :=
  if ¬ s.connectionAvailable ∨ SubscriptionQueue.isEmpty s.queue then s
  else
    match SubscriptionQueue.dequeue s.queue with
    | some (item, rest) =>
      Subscription.performAction { s with queue := rest } item (SubscriptionQueue.isEmpty rest)
    | none => s

/-- `Subscription.prototype.dispose`. -/
def Subscription.dispose (s : SubState) : SubState :=
  { s with isDisposed := true }

/-- `Subscription.prototype.onSubscribe`. A throw is modelled as the second
component: `(state, some message)` is a raised exception with the state as
mutated so far. -/
def Subscription.onSubscribe (s : SubState) : SubState × Option String :=
  if s.isDisposed then
    (s, some "Subscribing a disposed subscription - you will not get data")
  else
    (Subscription.tryPerformAction s .subscribe {}, none)

/-- `Subscription.prototype.onUnsubscribe(forceUnsubscribe)`: warns when
disposed but still proceeds. -/
def Subscription.onUnsubscribe (s : SubState) (forceUnsubscribe : Bool) : SubState :=
  let s := if s.isDisposed then addLog s "warn:unsubscribingDisposedSubscription" else s
  Subscription.tryPerformAction s .unsubscribe { force := forceUnsubscribe }

/-- The `options` argument of `onModify`. -/
structure ModifyOptions where
  isPatch : Bool := false
  patchArgsDelta : Option Nat := none
deriving DecidableEq, Repr

/-- `Subscription.prototype.onModify(newArgs, options)`. -/
def Subscription.onModify (s : SubState) (newArgs : Option Nat)
    (options : Option ModifyOptions) : SubState × Option String :=
  if s.isDisposed then
    (s, some "Modifying a disposed subscription - you will not get data")
  else
    let s := { s with subscriptionData := { s.subscriptionData with Arguments := newArgs } }
    match options with
    | some o =>
      if o.isPatch then
        if o.patchArgsDelta = none then
          (s, some "Modify options patchArgsDelta is not defined")
        else
          (Subscription.tryPerformAction s .modifyPatch { patch := o.patchArgsDelta }, none)
      else
        Subscription.onSubscribe (Subscription.onUnsubscribe s true)
    | none =>
      Subscription.onSubscribe (Subscription.onUnsubscribe s true)

/-- `Subscription.prototype.onConnectionUnavailable`. -/
def Subscription.onConnectionUnavailable (s : SubState) : SubState :=
  let s := { s with connectionAvailable := false }
  if s.networkErrorSubscribingTimer then
    Subscription.tryPerformAction { s with networkErrorSubscribingTimer := false } .subscribe {}
  else s

/-- `Subscription.prototype.onConnectionAvailable`. -/
def Subscription.onConnectionAvailable (s : SubState) : SubState :=
  let s := { s with connectionAvailable := true }
  if ¬ isTransitioning s.currentState then Subscription.onReadyToPerformNextAction s else s

/-- `Subscription.prototype.onUnsubscribeByTagPending`. -/
def Subscription.onUnsubscribeByTagPending (s : SubState) : SubState :=
  Subscription.tryPerformAction s .unsubscribeByTagPending {}

/-- `Subscription.prototype.onUnsubscribeByTagComplete`. -/
def Subscription.onUnsubscribeByTagComplete (s : SubState) : SubState :=
  Subscription.onReadyToPerformNextAction (setState s STATE_UNSUBSCRIBED)

/-- `Subscription.prototype.isReadyForUnsubscribeByTag`. -/
def Subscription.isReadyForUnsubscribeByTag (s : SubState) : Bool :=
  s.currentState = STATE_READY_FOR_UNSUBSCRIBE_BY_TAG

/-- `Subscription.prototype.reset`. The cases follow the source's `switch` on
`currentState`; `onSubscribe` at the end may throw when disposed, hence the
`SubState × Option String` result. -/
def Subscription.reset (s : SubState) : SubState × Option String :=
  if s.currentState = STATE_UNSUBSCRIBED ∨ s.currentState = STATE_UNSUBSCRIBE_REQUESTED then
    (s, none)
  else if s.currentState = STATE_SUBSCRIBE_REQUESTED ∨ s.currentState = STATE_SUBSCRIBED then
    if actionBits (SubscriptionQueue.peekAction s.queue) &&& SubAction.toBits .unsubscribe != 0 then
      (s, none)
    else
      Subscription.onSubscribe (Subscription.onUnsubscribe s true)
  else if s.currentState = STATE_PATCH_REQUESTED then
    Subscription.onSubscribe (Subscription.onUnsubscribe (setState s STATE_SUBSCRIBED) true)
  else if s.currentState = STATE_READY_FOR_UNSUBSCRIBE_BY_TAG then
    (s, none)
  else
    (addLog s "error:resetUnknownState", none)

/-- `Subscription.prototype.processUpdate(message, type)`: parse the payload
and deliver it; on a parse failure log and `reset()` (whose possible throw
propagates to the caller). -/
def Subscription.processUpdate (s : SubState) (message : Message) (updateType : Nat) :
    SubState × Option String :=
  match s.parser.parse message.Data s.schemaName with
  | some parsedData => (fireEvent s (.update (some parsedData) updateType), none)
  | none =>
    let s := addLog s "error:parsingData"
    Subscription.reset s

/-- `Subscription.prototype.processSnapshot(response)`: register an included
schema, fall back for a missing schema name, and deliver the snapshot. -/
def Subscription.processSnapshot (s : SubState) (response : SnapshotResponse) : SubState :=
  let s :=
    if response.Schema.isSome ∧ response.SchemaName.isSome then
      { s with
        schemaName := response.SchemaName
        parser := s.parser.addSchema (response.SchemaName.getD "") }
    else s
  let s :=
    if response.SchemaName.isNone then
      let s := { s with schemaName := s.parser.getSchemaName }
      if s.subscriptionData.Format = some FORMAT_PROTOBUF ∧ s.schemaName.isNone then
        { s with parser := ParserFacade.getParser (some ParserFacade.getDefaultFormat) }
      else s
    else s
  fireEvent s (.update response.Snapshot UPDATE_TYPE_SNAPSHOT)

/-- `Subscription.prototype.onStreamingData(message)`: stamp activity, then
route on the current state. The `default` branch of the source's `switch` logs
an error and falls through to `processUpdate`. A throw escaping `processUpdate`
is caught and logged (`try`/`catch` around the delta update). -/
def Subscription.onStreamingData (s : SubState) (message : Message) (now : Nat) : SubState :=
  let s := onActivity s now
  if s.currentState = STATE_UNSUBSCRIBE_REQUESTED then s
  else if s.currentState = STATE_UNSUBSCRIBED then s
  else if s.currentState = STATE_SUBSCRIBE_REQUESTED then
    { s with updatesBeforeSubscribed := some ((s.updatesBeforeSubscribed.getD []) ++ [message]) }
  else
    let s :=
      if s.currentState = STATE_SUBSCRIBED ∨ s.currentState = STATE_PATCH_REQUESTED then s
      else addLog s "error:unanticipatedStateStreamingData"
    match Subscription.processUpdate s message UPDATE_TYPE_DELTA with
    | (s, none) => s
    | (s, some _) => addLog s "error:streamingDeltaUpdateCallback"

/-- `cleanUpLeftOverSubscription(referenceId)`: fire-and-forget DELETE with the
captured reference id (a failure of that DELETE is only logged). -/
def Subscription.cleanUpLeftOverSubscription (s : SubState) (referenceId : Nat) : SubState :=
  { s with httpCalls := s.httpCalls ++
      [.del s.servicePath (s.url ++ "/{contextId}/{referenceId}")
        s.currentStreamingContextId (some referenceId)] }

/-- `onSubscribeSuccess(referenceId, result)`. The source's zero-timeout
warning condition (`!responseData.InactivityTimeout === 0`) compares a boolean
with the number `0` and is always false, so no warning is modelled. The
`try`/`catch` around `processSnapshot` cannot fire here because callbacks are
modelled as trace events. -/
def Subscription.onSubscribeSuccess (s : SubState) (referenceId : Nat)
    (result : SubscribeResult) (now : Nat) : SubState :=
  let responseData := result.response
  if s.referenceId ≠ some referenceId then
    addLog s "info:staleSubscribeSuccessIgnored"
  else
    let s := setState s STATE_SUBSCRIBED
    let s := { s with inactivityTimeout := responseData.InactivityTimeout.getD 0 }
    let s := onActivity s now
    let s := if s.hasOnSubscriptionCreated then fireEvent s .subscriptionCreated else s
    let s :=
      if SubscriptionQueue.peekAction s.queue ≠ some SubAction.unsubscribe then
        let s := Subscription.processSnapshot s responseData
        match s.updatesBeforeSubscribed with
        | some updates => updates.foldl (fun acc m => Subscription.onStreamingData acc m now) s
        | none => s
      else s
    let s := { s with updatesBeforeSubscribed := none }
    Subscription.onReadyToPerformNextAction s

/-- `onSubscribeError(referenceId, response)`. -/
def Subscription.onSubscribeError (s : SubState) (referenceId : Nat)
    (response : Option ErrorResponse) : SubState :=
  if s.referenceId ≠ some referenceId then
    addLog s "debug:staleSubscribeErrorIgnored"
  else
    let willUnsubscribe :=
      actionBits (SubscriptionQueue.peekAction s.queue) &&& SubAction.toBits .unsubscribe != 0
    let s := setState s STATE_UNSUBSCRIBED
    let isDupeRequest :=
      ((response.bind (·.response)).bind (·.Message)) = some DUPLICATE_KEY_MESSAGE
    let s :=
      if isDupeRequest then
        Subscription.cleanUpLeftOverSubscription
          (addLog s "error:duplicateRequestSubscribing") referenceId
      else s
    if isDupeRequest ∧ ¬ willUnsubscribe then
      Subscription.tryPerformAction s .subscribe {}
    else
      let errorCode := (response.bind (·.response)).bind (·.ErrorCode)
      let isUnsupportedFormat :=
        errorCode = some ERROR_UNSUPPORTED_FORMAT
          ∧ s.subscriptionData.Format = some FORMAT_PROTOBUF
      let s :=
        if isUnsupportedFormat then
          let s := addLog s "warn:protobufNotSupportedFallingBackToJson"
          { s with
            subscriptionData := { s.subscriptionData with Format := some FORMAT_JSON }
            parser := ParserFacade.getParser (some FORMAT_JSON) }
        else s
      if isUnsupportedFormat ∧ ¬ willUnsubscribe then
        Subscription.tryPerformAction s .subscribe {}
      else
        let isNetworkError := (response.map (·.isNetworkError)).getD false
        if isNetworkError ∧ ¬ willUnsubscribe then
          let s := addLog s "debug:networkErrorSubscribing"
          let s := { s with networkErrorSubscribingTimer := true }
          if s.hasOnNetworkError then fireEvent s .networkError else s
        else
          let s := if ¬ isNetworkError then addLog s "error:errorSubscribing" else s
          let s := if ¬ willUnsubscribe ∧ s.hasOnError then fireEvent s .error else s
          Subscription.onReadyToPerformNextAction s

/-- `onUnsubscribeSuccess(referenceId, response)`. -/
def Subscription.onUnsubscribeSuccess (s : SubState) (referenceId : Nat) : SubState :=
  if s.referenceId ≠ some referenceId then
    addLog s "debug:staleUnsubscribeSuccessIgnored"
  else
    Subscription.onReadyToPerformNextAction (setState s STATE_UNSUBSCRIBED)

/-- `onUnsubscribeError(referenceId, response)`. -/
def Subscription.onUnsubscribeError (s : SubState) (referenceId : Nat) : SubState :=
  if s.referenceId ≠ some referenceId then
    addLog s "debug:staleUnsubscribeErrorIgnored"
  else
    let s := setState s STATE_UNSUBSCRIBED
    let s := addLog s "info:errorUnsubscribing"
    Subscription.onReadyToPerformNextAction s

/-- `onModifyPatchSuccess(referenceId, response)`. -/
def Subscription.onModifyPatchSuccess (s : SubState) (referenceId : Nat) : SubState :=
  if s.referenceId ≠ some referenceId then
    addLog s "debug:staleModifyPatchSuccessIgnored"
  else
    Subscription.onReadyToPerformNextAction (setState s STATE_SUBSCRIBED)

/-- `onModifyPatchError(referenceId, response)`. -/
def Subscription.onModifyPatchError (s : SubState) (referenceId : Nat) : SubState :=
  if s.referenceId ≠ some referenceId then
    addLog s "debug:staleModifyPatchErrorIgnored"
  else
    let s := setState s STATE_SUBSCRIBED
    let s := addLog s "error:errorPatching"
    Subscription.onReadyToPerformNextAction s

/-- The `Subscription` constructor: choose the parser from the requested
format, default/clamp `RefreshRate` (JS falsiness makes `RefreshRate: 0` take
the default), and enter UNSUBSCRIBED. -/
def createSubscription (streamingContextId : Nat) (servicePath url : String)
    (subscriptionArgs : SubscriptionData) (hasOnSubscriptionCreated : Bool)
    (hasOnError : Bool) (hasOnQueueEmpty : Bool) (hasOnNetworkError : Bool) : SubState :=
  let parser := ParserFacade.getParser subscriptionArgs.Format
  let (subscriptionData, logs) :=
    match subscriptionArgs.RefreshRate with
    | none => ({ subscriptionArgs with RefreshRate := some DEFAULT_REFRESH_RATE_MS }, [])
    | some r =>
      if r = 0 then ({ subscriptionArgs with RefreshRate := some DEFAULT_REFRESH_RATE_MS }, [])
      else if r < MIN_REFRESH_RATE_MS then
        ({ subscriptionArgs with RefreshRate := some MIN_REFRESH_RATE_MS },
          ["warn:lowRefreshRate"])
      else (subscriptionArgs, [])
  setState
    { streamingContextId := streamingContextId
      servicePath := servicePath
      url := url
      subscriptionData := subscriptionData
      parser := parser
      hasOnSubscriptionCreated := hasOnSubscriptionCreated
      hasOnError := hasOnError
      hasOnQueueEmpty := hasOnQueueEmpty
      hasOnNetworkError := hasOnNetworkError
      connectionAvailable := true
      logs := logs }
    STATE_UNSUBSCRIBED

/-! ## Claim theorems: subscription state machine -/

/-- A concrete subscription reached through the public API: constructed, then
subscribed (reference id 1), with the subscribe POST acknowledged. -/
def exampleSubscribed : SubState :=
  Subscription.onSubscribeSuccess
    ((Subscription.onSubscribe
      (createSubscription 7 "svc" "v1/prices" { Format := some FORMAT_JSON }
        true true false false)).1)
    1 { response := { InactivityTimeout := some 30, Snapshot := some 11 } } 100

/-- The subscription parked for unsubscribe-by-tag: `onUnsubscribeByTagPending`
executes and `setState(this.STATE_READY_FOR_UNSUBSCRIBE_BY_TAG)` stores the
undefined constant. -/
def exampleReadyByTag : SubState :=
  Subscription.onUnsubscribeByTagPending exampleSubscribed

/-- C1: evaluation at the failing input. In the READY_FOR_UNSUBSCRIBE_BY_TAG
state (whose constant the source never assigns, so it reads as JS `undefined`
and contributes nothing to `TRANSITIONING_STATES = 0x15`), a SUBSCRIBE
requested through `tryPerformAction` is NOT enqueued: the transitioning bitmask
test `TRANSITIONING_STATES & currentState` coerces `undefined` to `0`, so the
action goes straight to `performAction`, which drops it with an
"unanticipated state" error log (no HTTP request, no state transition, and —
contrary to the claim — an empty queue). -/
theorem c1_ready_for_unsubscribe_by_tag_bypasses_queue :
    exampleReadyByTag.currentState = STATE_READY_FOR_UNSUBSCRIBE_BY_TAG
    ∧ exampleReadyByTag.connectionAvailable = true
    ∧ TRANSITIONING_STATES &&& jsToUInt32 exampleReadyByTag.currentState = 0
    ∧ (Subscription.onSubscribe exampleReadyByTag).1.queue = []
    ∧ (Subscription.onSubscribe exampleReadyByTag).1.httpCalls = exampleReadyByTag.httpCalls
    ∧ (Subscription.onSubscribe exampleReadyByTag).1.currentState
        = exampleReadyByTag.currentState
    ∧ (Subscription.onSubscribe exampleReadyByTag).1.logs
        = exampleReadyByTag.logs ++ ["error:unanticipatedStateSubscribe"] :=
  ⟨rfl, rfl, rfl, rfl, rfl, rfl, rfl⟩

/-- C2: every transport response callback whose captured reference id differs
from the current `referenceId` leaves the subscription completely unchanged
except for a single log entry: no state transition, no change to
`inactivityTimeout`, `latestActivity`, `queue` or `parser`, no HTTP request,
and no user callback (`onUpdate`, `onError`, `onSubscriptionCreated`,
state-change observers) fires. -/
theorem c2_stale_responses_ignored (s : SubState) (referenceId : Nat)
    (result : SubscribeResult) (err : Option ErrorResponse) (now : Nat)
    (h : s.referenceId ≠ some referenceId) :
    Subscription.onSubscribeSuccess s referenceId result now
        = addLog s "info:staleSubscribeSuccessIgnored"
    ∧ Subscription.onSubscribeError s referenceId err
        = addLog s "debug:staleSubscribeErrorIgnored"
    ∧ Subscription.onUnsubscribeSuccess s referenceId
        = addLog s "debug:staleUnsubscribeSuccessIgnored"
    ∧ Subscription.onUnsubscribeError s referenceId
        = addLog s "debug:staleUnsubscribeErrorIgnored"
    ∧ Subscription.onModifyPatchSuccess s referenceId
        = addLog s "debug:staleModifyPatchSuccessIgnored"
    ∧ Subscription.onModifyPatchError s referenceId
        = addLog s "debug:staleModifyPatchErrorIgnored" := by
  refine ⟨?_, ?_, ?_, ?_, ?_, ?_⟩ <;>
    simp [Subscription.onSubscribeSuccess, Subscription.onSubscribeError,
      Subscription.onUnsubscribeSuccess, Subscription.onUnsubscribeError,
      Subscription.onModifyPatchSuccess, Subscription.onModifyPatchError, h]

/-- A subscription state carrying reference id 5, awaiting a subscribe
response. -/
def exampleAwaitingRef5 : SubState :=
  { streamingContextId := 7
    referenceId := some 5
    currentState := STATE_SUBSCRIBE_REQUESTED
    servicePath := "svc"
    url := "v1/prices" }

/-- Witness for C2 at a concrete stale response. -/
theorem c2_witness :
    exampleAwaitingRef5.referenceId ≠ some 3
    ∧ Subscription.onSubscribeSuccess exampleAwaitingRef5 3 { response := {} } 0
        = addLog exampleAwaitingRef5 "info:staleSubscribeSuccessIgnored" :=
  ⟨by decide,
    (c2_stale_responses_ignored exampleAwaitingRef5 3 { response := {} } none 0 (by decide)).1⟩

/-- The duplicate-key error response. -/
def exampleDupeResponse : ErrorResponse :=
  { response := some { Message := some DUPLICATE_KEY_MESSAGE } }

/-- C3 counterexample: a subscribe error response carrying the duplicate-key
message whose captured reference id (3) differs from the current reference id
(5) issues NO cleanup DELETE: the stale-reference guard returns before the
duplicate-key handling, so the list of HTTP requests stays empty and the only
effect is the stale-response debug log. -/
theorem c3_counterexample :
    (exampleDupeResponse.response.bind (·.Message)) = some DUPLICATE_KEY_MESSAGE
    ∧ exampleAwaitingRef5.referenceId = some 5
    ∧ (Subscription.onSubscribeError exampleAwaitingRef5 3 (some exampleDupeResponse)).httpCalls
        = []
    ∧ Subscription.onSubscribeError exampleAwaitingRef5 3 (some exampleDupeResponse)
        = addLog exampleAwaitingRef5 "debug:staleSubscribeErrorIgnored" :=
  ⟨rfl, rfl, rfl, rfl⟩

/-- C3 (amended): a subscribe error response carrying the duplicate-key message
whose captured reference id differs from the current reference id is ignored
entirely — no cleanup DELETE is issued and nothing changes beyond a debug log
entry (the cleanup DELETE of the duplicate-key path runs only when the
captured reference id still matches). -/
theorem c3_stale_duplicate_ignored_without_cleanup (s : SubState) (referenceId : Nat)
    (response : ErrorResponse)
    (hstale : s.referenceId ≠ some referenceId)
    (_hdupe : (response.response.bind (·.Message)) = some DUPLICATE_KEY_MESSAGE) :
    Subscription.onSubscribeError s referenceId (some response)
        = addLog s "debug:staleSubscribeErrorIgnored"
    ∧ (Subscription.onSubscribeError s referenceId (some response)).httpCalls = s.httpCalls := by
  have h1 : Subscription.onSubscribeError s referenceId (some response)
      = addLog s "debug:staleSubscribeErrorIgnored" := by
    simp [Subscription.onSubscribeError, hstale]
  exact ⟨h1, by rw [h1]; rfl⟩

/-- Witness for C3 (amended) at a concrete stale duplicate-key response. -/
theorem c3_witness :
    exampleAwaitingRef5.referenceId ≠ some 4
    ∧ (exampleDupeResponse.response.bind (·.Message)) = some DUPLICATE_KEY_MESSAGE
    ∧ Subscription.onSubscribeError exampleAwaitingRef5 4 (some exampleDupeResponse)
        = addLog exampleAwaitingRef5 "debug:staleSubscribeErrorIgnored" :=
  ⟨by decide, rfl,
    (c3_stale_duplicate_ignored_without_cleanup exampleAwaitingRef5 4 exampleDupeResponse
      (by decide) rfl).1⟩

/-- The example subscription after `dispose()`. -/
def exampleDisposed : SubState := Subscription.dispose exampleSubscribed

/-- C5 counterexample: after `dispose()` the subscription can still issue HTTP
requests through a public method: `onUnsubscribe` only logs a warning when
disposed and then proceeds, and from the SUBSCRIBED state it issues the
unsubscribe DELETE. -/
theorem c5_counterexample :
    exampleDisposed.isDisposed = true
    ∧ (Subscription.onUnsubscribe exampleDisposed false).httpCalls
        = exampleDisposed.httpCalls
          ++ [.del "svc" "v1/prices/{contextId}/{referenceId}" (some 7) (some 1)]
    ∧ (Subscription.onUnsubscribe exampleDisposed false).logs
        = exampleDisposed.logs ++ ["warn:unsubscribingDisposedSubscription"] :=
  ⟨rfl, rfl, rfl⟩

/-- C5 (amended): after `dispose()`, `onSubscribe` and `onModify` throw
immediately — the state is untouched and no HTTP request is issued — but
`onUnsubscribe` (and actions already queued or arriving through callbacks) are
not blocked and may still issue requests, as the counterexample shows with a
DELETE. -/
theorem c5_dispose_blocks_subscribe_and_modify (s : SubState) (newArgs : Option Nat)
    (options : Option ModifyOptions) (h : s.isDisposed = true) :
    Subscription.onSubscribe s
        = (s, some "Subscribing a disposed subscription - you will not get data")
    ∧ Subscription.onModify s newArgs options
        = (s, some "Modifying a disposed subscription - you will not get data") := by
  constructor <;> simp [Subscription.onSubscribe, Subscription.onModify, h]

/-- Witness for C5 (amended) on the concrete disposed subscription. -/
theorem c5_witness :
    exampleDisposed.isDisposed = true
    ∧ Subscription.onSubscribe exampleDisposed
        = (exampleDisposed, some "Subscribing a disposed subscription - you will not get data") :=
  ⟨rfl, (c5_dispose_blocks_subscribe_and_modify exampleDisposed none none rfl).1⟩

/-! ## Helper lemmas about the transitioning bitmask and `subscribe` -/

theorem isTransitioning_unsubscribed : isTransitioning STATE_UNSUBSCRIBED = false := by decide

theorem isTransitioning_subscribed : isTransitioning STATE_SUBSCRIBED = false := by decide

theorem isTransitioning_subscribe_requested :
    isTransitioning STATE_SUBSCRIBE_REQUESTED = true := by decide

theorem actionBits_and_unsub_eq_zero (o : Option SubAction)
    (h : o ≠ some SubAction.unsubscribe) :
    actionBits o &&& SubAction.toBits .unsubscribe = 0 := by
  cases o with
  | none => rfl
  | some a =>
    cases a with
    | subscribe => rfl
    | unsubscribe => exact absurd rfl h
    | modifyPatch => rfl
    | unsubscribeByTagPending => rfl

theorem Subscription.subscribe_currentState (s : SubState) :
    (Subscription.subscribe s).currentState = STATE_SUBSCRIBE_REQUESTED := rfl

theorem Subscription.subscribe_subscriptionData (s : SubState) :
    (Subscription.subscribe s).subscriptionData = s.subscriptionData := rfl

theorem Subscription.subscribe_parser (s : SubState) :
    (Subscription.subscribe s).parser = s.parser := rfl

theorem Subscription.subscribe_queue (s : SubState) :
    (Subscription.subscribe s).queue = s.queue := rfl

theorem Subscription.subscribe_url (s : SubState) :
    (Subscription.subscribe s).url = s.url := rfl

theorem Subscription.subscribe_servicePath (s : SubState) :
    (Subscription.subscribe s).servicePath = s.servicePath := rfl

theorem Subscription.subscribe_events (s : SubState) :
    (Subscription.subscribe s).events
      = s.events ++ [.stateChanged STATE_SUBSCRIBE_REQUESTED] := rfl

theorem Subscription.subscribe_httpCalls (s : SubState) :
    (Subscription.subscribe s).httpCalls
      = s.httpCalls ++ [.post s.servicePath (getSubscribeUrl s.url s.subscriptionData)
          (normalizeSubscribeData
            { data := s.subscriptionData
              ContextId := s.streamingContextId
              ReferenceId := s.refCounter
              KnownSchemas := s.parser.getSchemaNames })] := rfl

/-- Dispatching a SUBSCRIBE in the UNSUBSCRIBED state clears queued patches and
issues the subscribe. -/
theorem Subscription.dispatchAction_subscribe_unsubscribed (s : SubState)
    (hstate : s.currentState = STATE_UNSUBSCRIBED) :
    Subscription.dispatchAction s { action := .subscribe }
      = Subscription.subscribe { s with queue := SubscriptionQueue.clearPatches s.queue } := by
  unfold Subscription.dispatchAction
  rw [hstate]
  rfl

/-- Performing a SUBSCRIBE in the UNSUBSCRIBED state clears queued patches and
issues the subscribe; the resulting SUBSCRIBE_REQUESTED state is transitioning,
so the queue-draining recursion stops. -/
theorem Subscription.performAction_subscribe_unsubscribed (s : SubState)
    (hstate : s.currentState = STATE_UNSUBSCRIBED) :
    Subscription.performAction s { action := .subscribe } false
      = Subscription.subscribe { s with queue := SubscriptionQueue.clearPatches s.queue } := by
  unfold Subscription.performAction
  simp only [Subscription.performActionCore]
  rw [Subscription.dispatchAction_subscribe_unsubscribed s hstate]
  simp [Subscription.subscribe_currentState, isTransitioning_subscribe_requested]

/-- `tryPerformAction(SUBSCRIBE)` in the UNSUBSCRIBED state with the connection
available executes immediately: queued patches are cleared and the subscribe
POST is issued. -/
theorem Subscription.tryPerformAction_subscribe_unsubscribed_conn (s : SubState)
    (hstate : s.currentState = STATE_UNSUBSCRIBED) (hconn : s.connectionAvailable = true) :
    Subscription.tryPerformAction s .subscribe {}
      = Subscription.subscribe
          { s with
              networkErrorSubscribingTimer := false
              queue := SubscriptionQueue.clearPatches s.queue } := by
  unfold Subscription.tryPerformAction
  rw [if_neg]
  · exact Subscription.performAction_subscribe_unsubscribed
      { s with networkErrorSubscribingTimer := false } hstate
  · show ¬ (¬ s.connectionAvailable = true ∨ isTransitioning s.currentState = true)
    simp [hconn, hstate, isTransitioning_unsubscribed]

/-- `tryPerformAction(SUBSCRIBE)` with the connection unavailable enqueues the
action. -/
theorem Subscription.tryPerformAction_subscribe_noconn (s : SubState)
    (hconn : s.connectionAvailable = false) :
    Subscription.tryPerformAction s .subscribe {}
      = { s with
            networkErrorSubscribingTimer := false
            queue := SubscriptionQueue.enqueue s.queue { action := .subscribe } } := by
  unfold Subscription.tryPerformAction
  rw [if_pos]
  exact Or.inl (by simp [hconn])

/-- The `performAction` dispatch never touches the stored `subscriptionData`
or the parser: every branch only changes state, queue, traces or issues
HTTP. -/
theorem Subscription.dispatchAction_preserves (s : SubState) (qa : QueuedItem) :
    (Subscription.dispatchAction s qa).subscriptionData = s.subscriptionData
    ∧ (Subscription.dispatchAction s qa).parser = s.parser := by
  unfold Subscription.dispatchAction
  cases qa.action <;> constructor <;> (repeat' split) <;> rfl

/-- The queue-draining loop of `performAction` never touches
`subscriptionData` or the parser. -/
theorem Subscription.performActionCore_preserves (fuel : Nat) :
    ∀ (s : SubState) (qa : QueuedItem) (isLast : Bool),
    (Subscription.performActionCore fuel s qa isLast).subscriptionData = s.subscriptionData
    ∧ (Subscription.performActionCore fuel s qa isLast).parser = s.parser := by
  induction fuel with
  | zero => exact fun s qa isLast => ⟨rfl, rfl⟩
  | succ fuel ih =>
    intro s qa isLast
    obtain ⟨hd1, hd2⟩ := Subscription.dispatchAction_preserves s qa
    simp only [Subscription.performActionCore]
    split
    · constructor
      · split
        · split
          · exact (ih _ _ _).1.trans hd1
          · exact hd1
        · exact hd1
      · split
        · split
          · exact (ih _ _ _).2.trans hd2
          · exact hd2
        · exact hd2
    · constructor
      · split
        · split
          · exact (ih _ _ _).1.trans hd1
          · exact hd1
        · exact hd1
      · split
        · split
          · exact (ih _ _ _).2.trans hd2
          · exact hd2
        · exact hd2

/-- Draining the queue via `onReadyToPerformNextAction` never touches
`subscriptionData` or the parser. -/
theorem Subscription.onReadyToPerformNextAction_preserves (s : SubState) :
    (Subscription.onReadyToPerformNextAction s).subscriptionData = s.subscriptionData
    ∧ (Subscription.onReadyToPerformNextAction s).parser = s.parser := by
  unfold Subscription.onReadyToPerformNextAction
  split
  · exact ⟨rfl, rfl⟩
  · split
    · exact Subscription.performActionCore_preserves _ _ _ _
    · exact ⟨rfl, rfl⟩

/-- `tryPerformAction` never touches `subscriptionData` or the parser. -/
theorem Subscription.tryPerformAction_preserves (s : SubState) (action : SubAction)
    (args : QueueArgs) :
    (Subscription.tryPerformAction s action args).subscriptionData = s.subscriptionData
    ∧ (Subscription.tryPerformAction s action args).parser = s.parser := by
  simp only [Subscription.tryPerformAction]
  split
  · exact ⟨rfl, rfl⟩
  · exact Subscription.performActionCore_preserves _ _ _ _

/-- When the queue head IS an UNSUBSCRIBE, `peekAction() & ACTION_UNSUBSCRIBE`
is the UNSUBSCRIBE bit. -/
theorem actionBits_and_unsub_of_unsub (o : Option SubAction)
    (h : o = some SubAction.unsubscribe) :
    actionBits o &&& SubAction.toBits .unsubscribe = 2 := by
  subst h; rfl

/-- The unsupported-format branch of `onSubscribeError` reduces, for a
matching reference id, a non-duplicate response carrying
`ErrorCode == "UnsupportedSubscriptionFormat"`, a protobuf subscription and no
pending unsubscribe at the queue head, to: state UNSUBSCRIBED, warning logged,
format and parser swapped to JSON, then `tryPerformAction(SUBSCRIBE)`. -/
theorem Subscription.onSubscribeError_unsupported_format (s : SubState) (referenceId : Nat)
    (response : ErrorResponse)
    (href : s.referenceId = some referenceId)
    (hcode : response.response.bind (·.ErrorCode) = some ERROR_UNSUPPORTED_FORMAT)
    (hnodupe : ¬ response.response.bind (·.Message) = some DUPLICATE_KEY_MESSAGE)
    (hfmt : s.subscriptionData.Format = some FORMAT_PROTOBUF)
    (hpeek : SubscriptionQueue.peekAction s.queue ≠ some SubAction.unsubscribe) :
    Subscription.onSubscribeError s referenceId (some response)
      = Subscription.tryPerformAction
          { addLog (setState s STATE_UNSUBSCRIBED) "warn:protobufNotSupportedFallingBackToJson" with
              subscriptionData := { s.subscriptionData with Format := some FORMAT_JSON }
              parser := ParserFacade.getParser (some FORMAT_JSON) }
          .subscribe {} := by
  have hbits :
      actionBits (SubscriptionQueue.peekAction s.queue) &&& SubAction.toBits .unsubscribe = 0 :=
    actionBits_and_unsub_eq_zero _ hpeek
  unfold Subscription.onSubscribeError
  rw [if_neg (by simp [href])]
  simp only [Option.some_bind, hbits, hnodupe, hcode, hfmt, bne_self_eq_false,
    Bool.false_eq_true, if_false, false_and, and_true, not_false_eq_true, and_self, if_true,
    eq_self_iff_true, true_and, setState, fireEvent, addLog]

/-- The unsupported-format branch of `onSubscribeError` when an UNSUBSCRIBE
heads the queue (`willUnsubscribe` true): the format and parser are STILL
swapped to JSON, no retry is requested and no `onError` fires; after the
(conditional) error log the handler drains the queue via
`onReadyToPerformNextAction`. -/
theorem Subscription.onSubscribeError_unsupported_format_unsub_queued (s : SubState)
    (referenceId : Nat) (response : ErrorResponse)
    (href : s.referenceId = some referenceId)
    (hcode : response.response.bind (·.ErrorCode) = some ERROR_UNSUPPORTED_FORMAT)
    (hnodupe : ¬ response.response.bind (·.Message) = some DUPLICATE_KEY_MESSAGE)
    (hfmt : s.subscriptionData.Format = some FORMAT_PROTOBUF)
    (hpeek : SubscriptionQueue.peekAction s.queue = some SubAction.unsubscribe) :
    Subscription.onSubscribeError s referenceId (some response)
      = Subscription.onReadyToPerformNextAction
          (if ¬ response.isNetworkError = true then
            addLog
              { addLog (setState s STATE_UNSUBSCRIBED)
                  "warn:protobufNotSupportedFallingBackToJson" with
                  subscriptionData := { s.subscriptionData with Format := some FORMAT_JSON }
                  parser := ParserFacade.getParser (some FORMAT_JSON) }
              "error:errorSubscribing"
          else
            { addLog (setState s STATE_UNSUBSCRIBED)
                "warn:protobufNotSupportedFallingBackToJson" with
                subscriptionData := { s.subscriptionData with Format := some FORMAT_JSON }
                parser := ParserFacade.getParser (some FORMAT_JSON) }) := by
  have hbits :
      actionBits (SubscriptionQueue.peekAction s.queue) &&& SubAction.toBits .unsubscribe = 2 :=
    actionBits_and_unsub_of_unsub _ hpeek
  unfold Subscription.onSubscribeError
  rw [if_neg (by simp [href])]
  simp only [Option.some_bind, hbits, hnodupe, hcode, hfmt, Option.map_some', Option.getD_some,
    Bool.false_eq_true, if_false, false_and, and_true, and_false, not_false_eq_true, and_self,
    if_true, eq_self_iff_true, true_and, not_true, setState, fireEvent, addLog]
  simp only [show ((2 : Nat) != 0) = true from rfl, not_true, Bool.not_true, if_false,
    false_and, and_false, if_true, Bool.false_eq_true]

/-- C7 (amended): on a subscribe error with matching reference id whose
`ErrorCode` is `"UnsupportedSubscriptionFormat"`, whose `Message` is NOT the
duplicate-key message (that branch runs first and preempts this one), and with
the current format protobuf: the subscription data's `Format` becomes JSON and
the parser is replaced by the JSON parser unconditionally (even when an
UNSUBSCRIBE heads the queue); and if additionally the head queued action is not
an UNSUBSCRIBE, no `onError` fires (the only callbacks are the state-change
notifications) and a SUBSCRIBE is re-requested — immediately POSTed (entering
SUBSCRIBE_REQUESTED) when the connection is available, enqueued otherwise. -/
theorem c7_unsupported_format_fallback (s : SubState) (referenceId : Nat)
    (response : ErrorResponse)
    (href : s.referenceId = some referenceId)
    (hcode : response.response.bind (·.ErrorCode) = some ERROR_UNSUPPORTED_FORMAT)
    (hnodupe : ¬ response.response.bind (·.Message) = some DUPLICATE_KEY_MESSAGE)
    (hfmt : s.subscriptionData.Format = some FORMAT_PROTOBUF) :
    ((Subscription.onSubscribeError s referenceId (some response)).subscriptionData.Format
        = some FORMAT_JSON)
    ∧ (Subscription.onSubscribeError s referenceId (some response)).parser
        = ParserFacade.getParser (some FORMAT_JSON)
    ∧ (SubscriptionQueue.peekAction s.queue ≠ some SubAction.unsubscribe →
        (s.connectionAvailable = true →
          (Subscription.onSubscribeError s referenceId (some response)).currentState
              = STATE_SUBSCRIBE_REQUESTED
          ∧ (Subscription.onSubscribeError s referenceId (some response)).events
              = s.events ++ [.stateChanged STATE_UNSUBSCRIBED,
                  .stateChanged STATE_SUBSCRIBE_REQUESTED]
          ∧ ∃ body : PostBody,
              (Subscription.onSubscribeError s referenceId (some response)).httpCalls
                = s.httpCalls ++ [.post s.servicePath
                    (getSubscribeUrl s.url { s.subscriptionData with Format := some FORMAT_JSON })
                    body])
        ∧ (s.connectionAvailable = false →
          (Subscription.onSubscribeError s referenceId (some response)).queue
              = SubscriptionQueue.enqueue s.queue { action := .subscribe }
          ∧ (Subscription.onSubscribeError s referenceId (some response)).events
              = s.events ++ [.stateChanged STATE_UNSUBSCRIBED]
          ∧ (Subscription.onSubscribeError s referenceId (some response)).httpCalls
              = s.httpCalls)) := by
  by_cases hpk : SubscriptionQueue.peekAction s.queue = some SubAction.unsubscribe
  · have hshape := Subscription.onSubscribeError_unsupported_format_unsub_queued s referenceId
      response href hcode hnodupe hfmt hpk
    refine ⟨?_, ?_, fun hc => absurd hpk hc⟩
    · rw [hshape, (Subscription.onReadyToPerformNextAction_preserves _).1]
      split <;> rfl
    · rw [hshape, (Subscription.onReadyToPerformNextAction_preserves _).2]
      split <;> rfl
  · have hshape := Subscription.onSubscribeError_unsupported_format s referenceId response
      href hcode hnodupe hfmt hpk
    by_cases hconn : s.connectionAvailable = true
    · have hr : Subscription.onSubscribeError s referenceId (some response)
          = Subscription.subscribe
              { addLog (setState s STATE_UNSUBSCRIBED)
                  "warn:protobufNotSupportedFallingBackToJson" with
                  subscriptionData := { s.subscriptionData with Format := some FORMAT_JSON }
                  parser := ParserFacade.getParser (some FORMAT_JSON)
                  networkErrorSubscribingTimer := false
                  queue := SubscriptionQueue.clearPatches s.queue } := by
        rw [hshape]
        exact Subscription.tryPerformAction_subscribe_unsubscribed_conn _ rfl hconn
      refine ⟨?_, ?_, fun _ => ⟨?_, ?_⟩⟩
      · rw [hr]; rfl
      · rw [hr]; rfl
      · intro _
        refine ⟨?_, ?_, ?_⟩
        · rw [hr]; rfl
        · rw [hr, Subscription.subscribe_events]
          simp [setState, fireEvent, addLog]
        · rw [hr, Subscription.subscribe_httpCalls]
          exact ⟨_, rfl⟩
      · intro hc
        exact absurd (hconn.symm.trans hc) (by decide)
    · have hcf : s.connectionAvailable = false := by
        cases hb : s.connectionAvailable
        · rfl
        · exact absurd hb hconn
      have hr : Subscription.onSubscribeError s referenceId (some response)
          = { addLog (setState s STATE_UNSUBSCRIBED)
                "warn:protobufNotSupportedFallingBackToJson" with
                subscriptionData := { s.subscriptionData with Format := some FORMAT_JSON }
                parser := ParserFacade.getParser (some FORMAT_JSON)
                networkErrorSubscribingTimer := false
                queue := SubscriptionQueue.enqueue s.queue { action := .subscribe } } := by
        rw [hshape]
        exact Subscription.tryPerformAction_subscribe_noconn _ hcf
      exact ⟨by rw [hr]; all_goals rfl, by rw [hr]; all_goals rfl,
        fun _ => ⟨fun hc => absurd hc hconn,
          fun _ => ⟨by rw [hr]; all_goals rfl, by rw [hr]; all_goals rfl,
            by rw [hr]; all_goals rfl⟩⟩⟩

/-- A protobuf subscription that has issued its subscribe POST (reference id
1). -/
def exampleProtobufRequested : SubState :=
  (Subscription.onSubscribe
    (createSubscription 9 "svc" "v1/prices" { Format := some FORMAT_PROTOBUF }
      false true false false)).1

/-- An error response carrying BOTH the duplicate-key `Message` and the
`UnsupportedSubscriptionFormat` `ErrorCode`. -/
def exampleDupeUnsupportedResponse : ErrorResponse :=
  { response := some
      { Message := some DUPLICATE_KEY_MESSAGE, ErrorCode := some ERROR_UNSUPPORTED_FORMAT } }

/-- An error response carrying only the `UnsupportedSubscriptionFormat`
`ErrorCode`. -/
def exampleUnsupportedResponse : ErrorResponse :=
  { response := some { ErrorCode := some ERROR_UNSUPPORTED_FORMAT } }

/-- C7 counterexample: a subscribe error response with matching reference id,
`ErrorCode == "UnsupportedSubscriptionFormat"` and current format protobuf for
which the format is NOT switched to JSON and the parser is NOT replaced: the
duplicate-key `Message` is checked first, and that branch re-requests SUBSCRIBE
and returns before the unsupported-format handling runs. -/
theorem c7_counterexample :
    exampleProtobufRequested.referenceId = some 1
    ∧ exampleProtobufRequested.subscriptionData.Format = some FORMAT_PROTOBUF
    ∧ (exampleDupeUnsupportedResponse.response.bind (·.ErrorCode))
        = some ERROR_UNSUPPORTED_FORMAT
    ∧ SubscriptionQueue.peekAction exampleProtobufRequested.queue ≠ some SubAction.unsubscribe
    ∧ (Subscription.onSubscribeError exampleProtobufRequested 1
          (some exampleDupeUnsupportedResponse)).subscriptionData.Format
        = some FORMAT_PROTOBUF
    ∧ (Subscription.onSubscribeError exampleProtobufRequested 1
          (some exampleDupeUnsupportedResponse)).parser
        = { format := FORMAT_PROTOBUF } :=
  ⟨rfl, rfl, rfl, by decide, rfl, rfl⟩

/-- Witness for C7 (amended) at a concrete protobuf subscription and a plain
unsupported-format response. -/
theorem c7_witness :
    (Subscription.onSubscribeError exampleProtobufRequested 1
        (some exampleUnsupportedResponse)).subscriptionData.Format = some FORMAT_JSON
    ∧ (Subscription.onSubscribeError exampleProtobufRequested 1
        (some exampleUnsupportedResponse)).parser = ParserFacade.getParser (some FORMAT_JSON)
    ∧ (Subscription.onSubscribeError exampleProtobufRequested 1
        (some exampleUnsupportedResponse)).currentState = STATE_SUBSCRIBE_REQUESTED := by
  have h := c7_unsupported_format_fallback exampleProtobufRequested 1 exampleUnsupportedResponse
    rfl rfl (by decide) rfl
  exact ⟨h.1, h.2.1, ((h.2.2 (by decide)).1 rfl).1⟩

/-- C8 counterexample: in a state outside the five known states (here the
READY_FOR_UNSUBSCRIBE_BY_TAG parking state, reached through the public API),
`onStreamingData` logs the "unanticipated state" error but does NOT drop the
message: the `default` branch of the source's `switch` falls through, and the
message is parsed and delivered to `onUpdate` as a DELTA. -/
theorem c8_counterexample :
    exampleReadyByTag.currentState ∉ [STATE_UNSUBSCRIBE_REQUESTED, STATE_UNSUBSCRIBED,
        STATE_SUBSCRIBE_REQUESTED, STATE_SUBSCRIBED, STATE_PATCH_REQUESTED]
    ∧ (Subscription.onStreamingData exampleReadyByTag { Data := some 7 } 50).events
        = exampleReadyByTag.events ++ [.update (some 7) UPDATE_TYPE_DELTA]
    ∧ (Subscription.onStreamingData exampleReadyByTag { Data := some 7 } 50).logs
        = exampleReadyByTag.logs ++ ["error:unanticipatedStateStreamingData"] :=
  ⟨by decide, rfl, rfl⟩

/-- C8 (amended): `onStreamingData` routing — in SUBSCRIBED or PATCH_REQUESTED
a parsable message is parsed and delivered as a DELTA update (and nothing else
changes beyond the activity stamp); in any state outside the five known states
an error is logged and the message is nevertheless parsed and delivered as a
DELTA update (the source's `default` branch falls through). -/
theorem c8_streaming_data_routing (s : SubState) (message : Message) (now : Nat) (d : Nat)
    (hdata : message.Data = some d) :
    ((s.currentState = STATE_SUBSCRIBED ∨ s.currentState = STATE_PATCH_REQUESTED) →
      Subscription.onStreamingData s message now
        = fireEvent (onActivity s now) (.update (some d) UPDATE_TYPE_DELTA))
    ∧ (s.currentState ∉ [STATE_UNSUBSCRIBE_REQUESTED, STATE_UNSUBSCRIBED,
          STATE_SUBSCRIBE_REQUESTED, STATE_SUBSCRIBED, STATE_PATCH_REQUESTED] →
      Subscription.onStreamingData s message now
        = fireEvent (addLog (onActivity s now) "error:unanticipatedStateStreamingData")
            (.update (some d) UPDATE_TYPE_DELTA)) := by
  constructor
  · rintro (hstate | hstate) <;>
      simp [Subscription.onStreamingData, Subscription.processUpdate, onActivity, Parser.parse,
        hstate, hdata, STATE_SUBSCRIBED, STATE_PATCH_REQUESTED, STATE_UNSUBSCRIBE_REQUESTED,
        STATE_UNSUBSCRIBED, STATE_SUBSCRIBE_REQUESTED]
  · intro hstate
    simp only [List.mem_cons, List.not_mem_nil, or_false, not_or] at hstate
    obtain ⟨h1, h2, h3, h4, h5⟩ := hstate
    unfold Subscription.onStreamingData
    simp only [onActivity]
    rw [if_neg h1, if_neg h2, if_neg h3, if_neg (fun hc => hc.elim h4 h5)]
    unfold Subscription.processUpdate
    simp [Parser.parse, hdata]

/-- Witness for C8 (amended): delivery in SUBSCRIBED and in the undefined
parking state at concrete inputs. -/
theorem c8_witness :
    (exampleSubscribed.currentState = STATE_SUBSCRIBED
      ∨ exampleSubscribed.currentState = STATE_PATCH_REQUESTED)
    ∧ Subscription.onStreamingData exampleSubscribed { Data := some 3 } 200
        = fireEvent (onActivity exampleSubscribed 200) (.update (some 3) UPDATE_TYPE_DELTA)
    ∧ Subscription.onStreamingData exampleReadyByTag { Data := some 3 } 200
        = fireEvent (addLog (onActivity exampleReadyByTag 200)
            "error:unanticipatedStateStreamingData") (.update (some 3) UPDATE_TYPE_DELTA) := by
  refine ⟨Or.inl rfl, ?_, ?_⟩
  · exact (c8_streaming_data_routing exampleSubscribed { Data := some 3 } 200 3 rfl).1
      (Or.inl rfl)
  · exact (c8_streaming_data_routing exampleReadyByTag { Data := some 3 } 200 3 rfl).2
      (by decide)

/-- Iterating the internal `subscribe` step never changes the stored
subscription arguments, the url or the service path. -/
theorem Subscription.subscribe_iterate_invariants (s : SubState) (k : Nat) :
    (Subscription.subscribe^[k] s).subscriptionData = s.subscriptionData
    ∧ (Subscription.subscribe^[k] s).url = s.url
    ∧ (Subscription.subscribe^[k] s).servicePath = s.servicePath := by
  induction k with
  | zero => exact ⟨rfl, rfl, rfl⟩
  | succ k ih =>
    rw [Function.iterate_succ_apply']
    exact ⟨ih.1, ih.2.1, ih.2.2⟩

/-- C10: the internal subscribe step never mutates the stored
`subscriptionData`: the POST body is a shallow copy from which `Top` alone is
deleted, so after any number of subscribes the stored arguments (including
`Top`) are intact and the next subscribe again appends `?$top=<n>` to the url
while sending a body without `Top`. -/
theorem c10_subscribe_preserves_subscription_args (s : SubState) (n k : Nat)
    (htop : s.subscriptionData.Top = some n) (hn : n ≠ 0) :
    (Subscription.subscribe^[k] s).subscriptionData = s.subscriptionData
    ∧ ∃ body : PostBody,
        (Subscription.subscribe (Subscription.subscribe^[k] s)).httpCalls
          = (Subscription.subscribe^[k] s).httpCalls
            ++ [.post s.servicePath (s.url ++ "?$top=" ++ toString n) body]
        ∧ body.data = { s.subscriptionData with Top := none }
        ∧ body.data.Top = none := by
  obtain ⟨hdata, hurl, hsp⟩ := Subscription.subscribe_iterate_invariants s k
  have hurlEq : getSubscribeUrl s.url s.subscriptionData = s.url ++ "?$top=" ++ toString n := by
    unfold getSubscribeUrl
    simp only [htop]
    rw [if_neg hn]
  refine ⟨hdata,
    ⟨normalizeSubscribeData
      { data := s.subscriptionData
        ContextId := (Subscription.subscribe^[k] s).streamingContextId
        ReferenceId := (Subscription.subscribe^[k] s).refCounter
        KnownSchemas := (Subscription.subscribe^[k] s).parser.getSchemaNames }, ?_, rfl, rfl⟩⟩
  rw [Subscription.subscribe_httpCalls, hdata, hurl, hsp, hurlEq]

/-- A subscription constructed with `Top: 10` in its arguments. -/
def exampleTopSubscription : SubState :=
  createSubscription 3 "svc" "v1/items" { Format := some FORMAT_JSON, Top := some 10 }
    false false false false

/-- Witness for C10 after one prior subscribe (`k = 1`). -/
theorem c10_witness :
    exampleTopSubscription.subscriptionData.Top = some 10
    ∧ (Subscription.subscribe^[1] exampleTopSubscription).subscriptionData
        = exampleTopSubscription.subscriptionData
    ∧ ∃ body : PostBody,
        (Subscription.subscribe (Subscription.subscribe^[1] exampleTopSubscription)).httpCalls
          = (Subscription.subscribe^[1] exampleTopSubscription).httpCalls
            ++ [.post "svc" ("v1/items" ++ "?$top=" ++ toString 10) body]
        ∧ body.data = { exampleTopSubscription.subscriptionData with Top := none }
        ∧ body.data.Top = none := by
  have h := c10_subscribe_preserves_subscription_args exampleTopSubscription 10 1 rfl (by decide)
  exact ⟨rfl, h.1, h.2⟩
